import Mathlib

/-!
Shallow embedding of `ui/src/rgbmatrixeditor.cpp` (class `RGBMatrixEditor`)
from the qlcplus repository, together with theorems about the behaviour of
its slots.  Collaborator classes (`RGBMatrix`, `RGBMatrixStep`, `FixtureGroup`,
`Doc`, ...) are modelled as plain records whose getters/setters are field
accesses, and collaborator computations that live outside this file
(`previewMap`, `updateStepColor`, `checkNextStep`) are abstract function
parameters of the embedded slots.
-/

namespace QLC

/-- Model of Qt's `QColor`: a validity flag plus 8-bit red/green/blue
components.  `QColor()` (the invalid color) has all components zero. -/
structure QColor where
  valid : Bool
  r : Nat
  g : Nat
  b : Nat
deriving DecidableEq, Repr

/-- The invalid color `QColor()`. -/
def QColor.invalid : QColor := ⟨false, 0, 0, 0⟩

/-- `Qt::white`. -/
def QColor.white : QColor := ⟨true, 255, 255, 255⟩

/-- Qt's `qGray` on 8-bit components: `(r*11 + g*16 + b*5) / 32`. -/
def qGray (r g b : Nat) : Nat := (r * 11 + g * 16 + b * 5) / 32

/-- `qGray(c.rgb())`: an invalid color's `rgb()` has zero components. -/
def QColor.gray (c : QColor) : Nat := qGray c.r c.g c.b

/-- `Function::RunOrder` (also used as `RGBMatrix::PingPong` etc.). -/
inductive RunOrder
  | Loop
  | SingleShot
  | PingPong
deriving DecidableEq, Repr

/-- `Function::Direction`. -/
inductive Direction
  | Forward
  | Backward
deriving DecidableEq, Repr

/-- `Universe::BlendMode`; only the `MaskBlend` tag is inspected by the
editor. -/
inductive BlendMode
  | NormalBlend
  | MaskBlend
  | AdditiveBlend
  | SubtractiveBlend
deriving DecidableEq, Repr

/-- `RGBAlgorithm::Type`. -/
inductive AlgoType
  | Plain
  | Text
  | Image
  | Script
  | Audio
deriving DecidableEq, Repr

/-- The combo index of `RGBMatrix::ControlModeRgb`, the first enumerator of
`RGBMatrix::ControlMode` (value 0). -/
def controlModeRgbIndex : Nat := 0

/-- Model of the shared `RGBAlgorithm` object (collaborator class): the type
tag, `acceptColors()`, and the mutable properties of its `RGBText` /
`RGBImage` subclasses that this editor writes to. -/
structure RGBAlgorithm where
  type : AlgoType
  acceptColors : Nat
  text : String
  font : String
  animationStyle : Nat
  filename : String
  xOffset : Int
  yOffset : Int
deriving DecidableEq, Repr

/-- `FixtureGroup::invalidId()` (a `quint32` sentinel). -/
def invalidGroupId : Nat := 2 ^ 32 - 1

/-- `Fixture::invalidId()` (a `quint32` sentinel). -/
def invalidFixtureId : Nat := 2 ^ 32 - 1

/-- `QLCChannel::invalid()` (a `quint32` sentinel). -/
def invalidChannel : Nat := 2 ^ 32 - 1

/-- Model of the `RGBMatrix` collaborator: the fields this editor reads and
writes through getters/setters.  The control-mode combo index mirrors
`controlMode`. -/
structure RGBMatrix where
  name : String
  duration : Nat
  fadeInSpeed : Nat
  fadeOutSpeed : Nat
  stepsCount : Nat
  runOrder : RunOrder
  direction : Direction
  blendMode : BlendMode
  controlMode : Nat
  startColor : QColor
  endColor : QColor
  fixtureGroup : Nat
  algorithm : Option RGBAlgorithm
deriving DecidableEq, Repr

/-- Result of `RGBMatrixEditor::updateColors`: the matrix after the setter
calls, plus the arguments of the `calculateColorDelta` call on the preview
handler when one was made (`none` when `calculateColorDelta` was not
called). -/
structure UpdateColorsResult where
  matrix : RGBMatrix
  delta : Option (QColor × QColor)
deriving DecidableEq, Repr

/-- Shallow embedding of `RGBMatrixEditor::updateColors` (rgbmatrixeditor.cpp
lines 399-461).  `colorModeComboIndex` is `m_colorModeCombo->currentIndex()`.
The pixmap/icon updates are pure rendering and are not modelled. -/
def updateColors (m : RGBMatrix) (colorModeComboIndex : Nat) : UpdateColorsResult :=
  match m.algorithm with
  | none => ⟨m, none⟩
  | some algo =>
    if 0 < algo.acceptColors then
      if m.blendMode = BlendMode.MaskBlend then
        let m1 := { m with startColor := QColor.white, endColor := QColor.invalid }
        ⟨m1, some (m1.startColor, m1.endColor)⟩
      else if colorModeComboIndex ≠ controlModeRgbIndex then
        let g1 := m.startColor.gray
        let m1 := { m with startColor := ⟨true, g1, g1, g1⟩ }
        if 1 < algo.acceptColors then
          let g2 := m1.endColor.gray
          let m2 := { m1 with endColor := ⟨true, g2, g2, g2⟩ }
          ⟨m2, some (m2.startColor, m2.endColor)⟩
        else
          ⟨m1, some (m1.startColor, m1.endColor)⟩
      else
        if 1 < algo.acceptColors then ⟨m, some (m.startColor, m.endColor)⟩
        else ⟨m, none⟩
    else ⟨m, none⟩

/-- Concrete algorithm used by witnesses. -/
def algoW : RGBAlgorithm :=
  ⟨AlgoType.Plain, 2, "", "", 0, "", 0, 0⟩

/-- Concrete matrix used by the C8 witness. -/
def mC8 : RGBMatrix :=
  ⟨"m", 1000, 0, 0, 4, RunOrder.Loop, Direction.Forward, BlendMode.NormalBlend,
   1, ⟨true, 255, 0, 0⟩, ⟨true, 0, 0, 255⟩, 0, some algoW⟩

/-- Concrete matrix used by the C10 witness. -/
def mC10 : RGBMatrix :=
  ⟨"m", 1000, 0, 0, 4, RunOrder.Loop, Direction.Forward, BlendMode.MaskBlend,
   0, ⟨true, 255, 0, 0⟩, ⟨true, 0, 0, 255⟩, 0, some algoW⟩

/-- C8: when the algorithm accepts at least one color, the blend mode is not
MaskBlend and the selected control mode is not RGB, `updateColors` leaves the
matrix's start color with equal red, green and blue components, namely the
grayscale of its previous value; when the algorithm accepts more than one
color the end color is likewise grayscaled. -/
theorem updateColors_grayscales (m : RGBMatrix) (idx : Nat) (algo : RGBAlgorithm)
    (halg : m.algorithm = some algo) (hacc : 0 < algo.acceptColors)
    (hblend : m.blendMode ≠ BlendMode.MaskBlend) (hmode : idx ≠ controlModeRgbIndex) :
    (updateColors m idx).matrix.startColor =
        ⟨true, m.startColor.gray, m.startColor.gray, m.startColor.gray⟩ ∧
    (1 < algo.acceptColors →
      (updateColors m idx).matrix.endColor =
        ⟨true, m.endColor.gray, m.endColor.gray, m.endColor.gray⟩) := by
  unfold updateColors
  rw [halg]
  simp only [hacc, if_pos, hblend, if_neg, hmode, ite_true, ite_false, not_false_iff]
  by_cases h1 : 1 < algo.acceptColors <;> simp [h1, hmode]

/-- Witness for C8 at a concrete matrix. -/
theorem updateColors_grayscales_witness :
    mC8.algorithm = some algoW ∧ 0 < algoW.acceptColors ∧
    mC8.blendMode ≠ BlendMode.MaskBlend ∧ (1 : Nat) ≠ controlModeRgbIndex ∧
    ((updateColors mC8 1).matrix.startColor =
        ⟨true, mC8.startColor.gray, mC8.startColor.gray, mC8.startColor.gray⟩ ∧
     (1 < algoW.acceptColors →
       (updateColors mC8 1).matrix.endColor =
         ⟨true, mC8.endColor.gray, mC8.endColor.gray, mC8.endColor.gray⟩)) :=
  ⟨rfl, by decide, by decide, by decide,
   updateColors_grayscales mC8 1 algoW rfl (by decide) (by decide) (by decide)⟩

/-- C10: when the algorithm accepts at least one color and the blend mode is
MaskBlend, `updateColors` sets the start color to white and the end color to
the invalid color, and recalculates the preview handler's color delta from
those two values. -/
theorem updateColors_maskBlend (m : RGBMatrix) (idx : Nat) (algo : RGBAlgorithm)
    (halg : m.algorithm = some algo) (hacc : 0 < algo.acceptColors)
    (hblend : m.blendMode = BlendMode.MaskBlend) :
    (updateColors m idx).matrix.startColor = QColor.white ∧
    (updateColors m idx).matrix.endColor = QColor.invalid ∧
    (updateColors m idx).delta = some (QColor.white, QColor.invalid) := by
  unfold updateColors
  rw [halg]
  simp [hacc, hblend]

/-- Witness for C10 at a concrete matrix. -/
theorem updateColors_maskBlend_witness :
    mC10.algorithm = some algoW ∧ 0 < algoW.acceptColors ∧
    mC10.blendMode = BlendMode.MaskBlend ∧
    ((updateColors mC10 0).matrix.startColor = QColor.white ∧
     (updateColors mC10 0).matrix.endColor = QColor.invalid ∧
     (updateColors mC10 0).delta = some (QColor.white, QColor.invalid)) :=
  ⟨rfl, by decide, by decide,
   updateColors_maskBlend mC10 0 algoW rfl (by decide) (by decide)⟩

/-! ### Algorithm-mutex traces (slotTextEdited, slotFontButtonClicked,
slotAnimationActivated, slotImageEdited, slotImageButtonClicked,
slotImageAnimationActivated, slotOffsetSpinChanged) -/

/-- Mutations the editor applies to the shared algorithm object. -/
inductive AlgoMutation
  | setText (s : String)
  | setFont (f : String)
  | setAnimationStyle (n : Nat)
  | setFilename (s : String)
  | setXOffset (n : Int)
  | setYOffset (n : Int)
deriving DecidableEq, Repr

/-- Events on the matrix's algorithm mutex (`m_matrix->algorithmMutex()`)
and on the shared algorithm object. -/
inductive AlgoEv
  | lock
  | unlock
  | mutate (mu : AlgoMutation)
deriving DecidableEq, Repr

/-- A `QMutexLocker` scope: the constructor locks, the mutations happen,
and the destructor unlocks when the scope ends. -/
def lockedBlock (ms : List AlgoMutation) : List AlgoEv :=
  AlgoEv.lock :: (ms.map AlgoEv.mutate ++ [AlgoEv.unlock])

/-- Scan of an event trace keeping the current lock depth: every mutation
must happen at positive depth. -/
def wellLockedFrom : Nat → List AlgoEv → Bool
  | _, [] => true
  | d, AlgoEv.lock :: rest => wellLockedFrom (d + 1) rest
  | d, AlgoEv.unlock :: rest => wellLockedFrom (d - 1) rest
  | d, AlgoEv.mutate _ :: rest => decide (0 < d) && wellLockedFrom d rest

/-- A trace is well locked when every mutation happens while the mutex is
held. -/
def wellLocked (t : List AlgoEv) : Bool := wellLockedFrom 0 t

/-- Trace of `RGBMatrixEditor::slotTextEdited` (lines 784-796): the
`algo->setText(text)` call sits inside a `QMutexLocker` scope. -/
def slotTextEdited (m : RGBMatrix) (text : String) : List AlgoEv :=
  match m.algorithm with
  | some algo =>
    if algo.type = AlgoType.Text then lockedBlock [AlgoMutation.setText text]
    else []
  | none => []

/-- Trace of `RGBMatrixEditor::slotFontButtonClicked` (lines 798-816).
`fontOk` and `font` are the results of the `QFontDialog::getFont` call. -/
def slotFontButtonClicked (m : RGBMatrix) (fontOk : Bool) (font : String) : List AlgoEv :=
  match m.algorithm with
  | some algo =>
    if algo.type = AlgoType.Text then
      if fontOk then lockedBlock [AlgoMutation.setFont font] else []
    else []
  | none => []

/-- Trace of `RGBMatrixEditor::slotAnimationActivated` (lines 818-830).
`styleOf` models `RGBText::stringToAnimationStyle` (collaborator code). -/
def slotAnimationActivated (m : RGBMatrix) (styleOf : String → Nat) (text : String) :
    List AlgoEv :=
  match m.algorithm with
  | some algo =>
    if algo.type = AlgoType.Text then
      lockedBlock [AlgoMutation.setAnimationStyle (styleOf text)]
    else []
  | none => []

/-- Trace of `RGBMatrixEditor::slotImageEdited` (lines 832-844).
`fname` is `m_imageEdit->text()`. -/
def slotImageEdited (m : RGBMatrix) (fname : String) : List AlgoEv :=
  match m.algorithm with
  | some algo =>
    if algo.type = AlgoType.Image then lockedBlock [AlgoMutation.setFilename fname]
    else []
  | none => []

/-- Trace of `RGBMatrixEditor::slotImageButtonClicked` (lines 846-868).
`path` is the `QFileDialog::getOpenFileName` result. -/
def slotImageButtonClicked (m : RGBMatrix) (path : String) : List AlgoEv :=
  match m.algorithm with
  | some algo =>
    if algo.type = AlgoType.Image then
      if path.isEmpty then [] else lockedBlock [AlgoMutation.setFilename path]
    else []
  | none => []

/-- Trace of `RGBMatrixEditor::slotImageAnimationActivated` (lines 870-882).
`styleOf` models `RGBImage::stringToAnimationStyle` (collaborator code). -/
def slotImageAnimationActivated (m : RGBMatrix) (styleOf : String → Nat) (text : String) :
    List AlgoEv :=
  match m.algorithm with
  | some algo =>
    if algo.type = AlgoType.Image then
      lockedBlock [AlgoMutation.setAnimationStyle (styleOf text)]
    else []
  | none => []

/-- Trace of `RGBMatrixEditor::slotOffsetSpinChanged` (lines 884-909): a
Text block followed by an Image block, each locking around the two offset
setters.  `x` and `y` are the spin box values. -/
def slotOffsetSpinChanged (m : RGBMatrix) (x y : Int) : List AlgoEv :=
  (match m.algorithm with
   | some algo =>
     if algo.type = AlgoType.Text then
       lockedBlock [AlgoMutation.setXOffset x, AlgoMutation.setYOffset y]
     else []
   | none => []) ++
  (match m.algorithm with
   | some algo =>
     if algo.type = AlgoType.Image then
       lockedBlock [AlgoMutation.setXOffset x, AlgoMutation.setYOffset y]
     else []
   | none => [])

theorem wellLockedFrom_mutates (ms : List AlgoMutation) (d : Nat) (hd : 0 < d)
    (t : List AlgoEv) :
    wellLockedFrom d (ms.map AlgoEv.mutate ++ t) = wellLockedFrom d t := by
  induction ms with
  | nil => rfl
  | cons mu ms ih => simp [wellLockedFrom, hd, ih]

theorem wellLockedFrom_lockedBlock (ms : List AlgoMutation) (d : Nat) (t : List AlgoEv) :
    wellLockedFrom d (lockedBlock ms ++ t) = wellLockedFrom d t := by
  show wellLockedFrom d (AlgoEv.lock :: ((ms.map AlgoEv.mutate ++ [AlgoEv.unlock]) ++ t))
      = wellLockedFrom d t
  rw [List.append_assoc]
  show wellLockedFrom (d + 1) (ms.map AlgoEv.mutate ++ (AlgoEv.unlock :: t))
      = wellLockedFrom d t
  rw [wellLockedFrom_mutates ms (d + 1) (Nat.succ_pos d)]
  show wellLockedFrom (d + 1 - 1) t = wellLockedFrom d t
  rfl

theorem wellLocked_lockedBlock (ms : List AlgoMutation) :
    wellLocked (lockedBlock ms) = true := by
  have h := wellLockedFrom_lockedBlock ms 0 []
  simpa [wellLocked] using h

/-- C7: every mutation of the shared algorithm object performed by this
editor (text, font, animation style, filename, x/y offsets of a Text or
Image algorithm) happens while the matrix's algorithm mutex is held. -/
theorem algorithm_mutations_locked (m : RGBMatrix)
    (text font anim fname path anim2 : String) (fontOk : Bool)
    (styleOfT styleOfI : String → Nat) (x y : Int) :
    wellLocked (slotTextEdited m text) = true ∧
    wellLocked (slotFontButtonClicked m fontOk font) = true ∧
    wellLocked (slotAnimationActivated m styleOfT anim) = true ∧
    wellLocked (slotImageEdited m fname) = true ∧
    wellLocked (slotImageButtonClicked m path) = true ∧
    wellLocked (slotImageAnimationActivated m styleOfI anim2) = true ∧
    wellLocked (slotOffsetSpinChanged m x y) = true := by
  refine ⟨?_, ?_, ?_, ?_, ?_, ?_, ?_⟩
  · unfold slotTextEdited
    cases m.algorithm with
    | none => rfl
    | some a =>
      by_cases h : a.type = AlgoType.Text <;> simp [h, wellLocked_lockedBlock, wellLocked, wellLockedFrom]
  · unfold slotFontButtonClicked
    cases m.algorithm with
    | none => rfl
    | some a =>
      by_cases h : a.type = AlgoType.Text <;> cases fontOk <;>
        simp [h, wellLocked_lockedBlock, wellLocked, wellLockedFrom]
  · unfold slotAnimationActivated
    cases m.algorithm with
    | none => rfl
    | some a =>
      by_cases h : a.type = AlgoType.Text <;> simp [h, wellLocked_lockedBlock, wellLocked, wellLockedFrom]
  · unfold slotImageEdited
    cases m.algorithm with
    | none => rfl
    | some a =>
      by_cases h : a.type = AlgoType.Image <;> simp [h, wellLocked_lockedBlock, wellLocked, wellLockedFrom]
  · unfold slotImageButtonClicked
    cases m.algorithm with
    | none => rfl
    | some a =>
      by_cases h : a.type = AlgoType.Image <;> cases he : path.isEmpty <;>
        simp [h, he, wellLocked_lockedBlock, wellLocked, wellLockedFrom]
  · unfold slotImageAnimationActivated
    cases m.algorithm with
    | none => rfl
    | some a =>
      by_cases h : a.type = AlgoType.Image <;> simp [h, wellLocked_lockedBlock, wellLocked, wellLockedFrom]
  · unfold slotOffsetSpinChanged
    cases m.algorithm with
    | none => rfl
    | some a =>
      by_cases ht : a.type = AlgoType.Text <;> by_cases hi : a.type = AlgoType.Image <;>
        simp [ht, hi, wellLocked, wellLockedFrom_lockedBlock, wellLockedFrom]

/-! ### Fixture groups, fixtures, document, preview items -/

/-- A fixture head within a group: fixture id and head index. -/
structure GroupHead where
  fxi : Nat
  head : Nat
deriving DecidableEq, Repr

/-- A point on the fixture group grid, as `(x, y)`. -/
abbrev QLCPoint := Nat × Nat

/-- Model of `FixtureGroup`: its id, name, grid size and heads map. -/
structure FixtureGroup where
  id : Nat
  name : String
  width : Nat
  height : Nat
  heads : List (QLCPoint × GroupHead)
deriving DecidableEq, Repr

/-- `FixtureGroup::headsMap().contains(pt)`. -/
def FixtureGroup.containsHead (g : FixtureGroup) (pt : QLCPoint) : Bool :=
  (g.heads.find? (fun e => e.1 == pt)).isSome

/-- `FixtureGroup::head(pt)`: the heads-map value at `pt`, or a
default-constructed `GroupHead` (invalid fixture id) when `pt` is unmapped. -/
def FixtureGroup.headAt (g : FixtureGroup) (pt : QLCPoint) : GroupHead :=
  ((g.heads.find? (fun e => e.1 == pt)).map Prod.snd).getD ⟨invalidFixtureId, 0⟩

/-- `FixtureGroup::headList()`. -/
def FixtureGroup.headList (g : FixtureGroup) : List GroupHead :=
  g.heads.map Prod.snd

/-- Model of `Fixture`: `rgbChannels(head)` and the intensity-MSB channel
per head, stored as head-indexed lists (`invalidChannel` when absent). -/
structure Fixture where
  id : Nat
  rgbChannels : List (List Nat)
  masterChannels : List Nat
deriving DecidableEq, Repr

/-- `Fixture::rgbChannels(head)`. -/
def Fixture.rgbCh (f : Fixture) (head : Nat) : List Nat :=
  f.rgbChannels.getD head []

/-- `Fixture::channelNumber(QLCChannel::Intensity, QLCChannel::MSB, head)`. -/
def Fixture.master (f : Fixture) (head : Nat) : Nat :=
  f.masterChannels.getD head invalidChannel

/-- A `SceneValue`: fixture id, channel, value. -/
structure SceneValue where
  fxi : Nat
  channel : Nat
  value : Nat
deriving DecidableEq, Repr

/-- A `ChaserStep` as filled in by the save-to-sequence export. -/
structure ChaserStep where
  fid : Nat
  fadeIn : Nat
  hold : Nat
  fadeOut : Nat
  duration : Nat
  values : List SceneValue
deriving DecidableEq, Repr

/-- Functions registered with the document by this editor: the hidden group
scene and the exported sequence. -/
inductive DocFunction
  | scene (id : Nat) (name : String) (visible : Bool) (values : List SceneValue)
  | sequence (id : Nat) (name : String) (boundSceneID : Nat)
      (durationPerStep : Bool) (duration : Nat)
      (fadeInPerStep : Bool) (fadeInSpeed : Nat)
      (fadeOutPerStep : Bool) (fadeOutSpeed : Nat)
      (steps : List ChaserStep)
deriving DecidableEq, Repr

/-- Model of the `Doc` collaborator: fixture groups, fixtures, registered
functions. -/
structure Doc where
  fixtureGroups : List FixtureGroup
  fixtures : List Fixture
  functions : List DocFunction
  nextFunctionId : Nat
deriving DecidableEq, Repr

/-- `Doc::fixtureGroup(id)`. -/
def Doc.fixtureGroup (d : Doc) (id : Nat) : Option FixtureGroup :=
  d.fixtureGroups.find? (fun g => g.id == id)

/-- `Doc::fixture(id)`. -/
def Doc.fixture (d : Doc) (id : Nat) : Option Fixture :=
  d.fixtures.find? (fun f => f.id == id)

/-- `Doc::addFunction` (collaborator): registers the function under the next
free function id and returns that id. -/
def Doc.addFunction (d : Doc) (f : Nat → DocFunction) : Doc × Nat :=
  (⟨d.fixtureGroups, d.fixtures, d.functions ++ [f d.nextFunctionId],
    d.nextFunctionId + 1⟩, d.nextFunctionId)

/-- The placeholder text shown when no fixture group is bound. -/
def noGroupText : String := "No fixture group to control"

/-- Items added to the graphics scene by `createPreviewItems`: either the
placeholder text item or a per-head preview shape (rectangle when the shape
button is checked, ellipse otherwise) with its initial color. -/
inductive SceneItem
  | textItem (text : String)
  | headItem (pt : QLCPoint) (isRect : Bool) (color : Nat)
deriving DecidableEq, Repr

/-- Result of `createPreviewItems`: its return value, the items added to the
scene, and the rebuilt preview hash (point to item color). -/
structure PreviewItemsResult where
  ok : Bool
  sceneItems : List SceneItem
  previewHash : List (QLCPoint × Nat)
deriving DecidableEq, Repr

/-- `m_previewHandler->m_map[y][x]` (QList indexing, grid assumed covered). -/
def mapCell (map : List (List Nat)) (x y : Nat) : Nat :=
  (map.getD y []).getD x 0

/-- Shallow embedding of `RGBMatrixEditor::createPreviewItems` (lines
578-638).  `initMap` is the map the collaborator call
`m_matrix->previewMap(m_previewHandler->currentStepIndex(), m_previewHandler)`
leaves in the handler after `initializeDirection`; `shapeChecked` is
`m_shapeButton->isChecked()`.  The hash and scene are cleared on entry, so
the result replaces both. -/
def createPreviewItems (doc : Doc) (m : RGBMatrix) (initMap : List (List Nat))
    (shapeChecked : Bool) : PreviewItemsResult :=
  match doc.fixtureGroup m.fixtureGroup with
  | none => ⟨false, [SceneItem.textItem noGroupText], []⟩
  | some grp =>
    if initMap.isEmpty then ⟨false, [], []⟩
    else
      let cells := (List.range grp.width).flatMap (fun x =>
        (List.range grp.height).filterMap (fun y =>
          if grp.containsHead (x, y) then some ((x, y), mapCell initMap x y)
          else none))
      ⟨true, cells.map (fun c => SceneItem.headItem c.1 shapeChecked c.2), cells⟩

/-- The preview-timer start at the end of `RGBMatrixEditor::init` (lines
239-242): afterwards the timer runs iff `createPreviewItems` returned
true. -/
def initPreviewTimerRunning (doc : Doc) (m : RGBMatrix)
    (initMap : List (List Nat)) (shapeChecked : Bool) : Bool :=
  (createPreviewItems doc m initMap shapeChecked).ok

/-- Externally observable actions of `slotRestartTest`: timer stop/start and
the matrix stop/start triggered through the two test-button clicks. -/
inductive TestEv
  | timerStop
  | timerStart (interval : Nat)
  | testStop
  | testStart
deriving DecidableEq, Repr

/-- Result of `slotRestartTest`: the action trace, whether the preview timer
is running afterwards, and the test button state. -/
structure RestartResult where
  events : List TestEv
  timerRunning : Bool
  testChecked : Bool
deriving DecidableEq, Repr

/-- Shallow embedding of `RGBMatrixEditor::slotRestartTest` (lines 984-998).
`tick` is `MasterTimer::tick()`.  A `m_testButton->click()` toggles the
button and triggers `slotTestClicked`, which calls `stopAndWait` when the
button is now unchecked and `start` when it is now checked; two clicks from
a checked button therefore stop and restart the test function. -/
def slotRestartTest (tick : Nat) (doc : Doc) (m : RGBMatrix)
    (initMap : List (List Nat)) (shapeChecked : Bool) (testChecked : Bool) :
    RestartResult :=
  let evs := [TestEv.timerStop]
  let evs := evs ++ (if testChecked then [TestEv.testStop, TestEv.testStart] else [])
  let cp := createPreviewItems doc m initMap shapeChecked
  if cp.ok then ⟨evs ++ [TestEv.timerStart tick], true, testChecked⟩
  else ⟨evs, false, testChecked⟩

/-- C5: when the document holds no fixture group under the matrix's bound
group id, `createPreviewItems` adds only the placeholder text item, returns
false, and neither `init` nor `slotRestartTest` starts the preview timer; no
per-head preview items are created. -/
theorem createPreviewItems_noGroup (doc : Doc) (m : RGBMatrix)
    (initMap : List (List Nat)) (shapeChecked : Bool) (tick : Nat)
    (testChecked : Bool)
    (h : doc.fixtureGroup m.fixtureGroup = none) :
    createPreviewItems doc m initMap shapeChecked =
      ⟨false, [SceneItem.textItem noGroupText], []⟩ ∧
    initPreviewTimerRunning doc m initMap shapeChecked = false ∧
    (slotRestartTest tick doc m initMap shapeChecked testChecked).timerRunning = false := by
  have hcp : createPreviewItems doc m initMap shapeChecked =
      ⟨false, [SceneItem.textItem noGroupText], []⟩ := by
    unfold createPreviewItems
    rw [h]
  refine ⟨hcp, ?_, ?_⟩
  · unfold initPreviewTimerRunning
    rw [hcp]
  · unfold slotRestartTest
    rw [hcp]
    simp

/-- Empty document used by the C5 witness. -/
def docEmpty : Doc := ⟨[], [], [], 0⟩

/-- Witness for C5 at a concrete document and matrix. -/
theorem createPreviewItems_noGroup_witness :
    docEmpty.fixtureGroup mC8.fixtureGroup = none ∧
    (createPreviewItems docEmpty mC8 [[1]] false =
      ⟨false, [SceneItem.textItem noGroupText], []⟩ ∧
    initPreviewTimerRunning docEmpty mC8 [[1]] false = false ∧
    (slotRestartTest 20 docEmpty mC8 [[1]] false true).timerRunning = false) :=
  ⟨rfl, createPreviewItems_noGroup docEmpty mC8 [[1]] false 20 true rfl⟩

/-- C6: `slotRestartTest` first stops the preview timer, then (when the test
button was checked) stops and restarts the test function through two button
clicks, and afterwards the preview timer runs at the scheduler tick iff
`createPreviewItems` returned true; nothing else is done to the timer. -/
theorem slotRestartTest_spec (tick : Nat) (doc : Doc) (m : RGBMatrix)
    (initMap : List (List Nat)) (shapeChecked : Bool) (testChecked : Bool) :
    (slotRestartTest tick doc m initMap shapeChecked testChecked).events =
      [TestEv.timerStop] ++
      (if testChecked then [TestEv.testStop, TestEv.testStart] else []) ++
      (if (createPreviewItems doc m initMap shapeChecked).ok
        then [TestEv.timerStart tick] else []) ∧
    (slotRestartTest tick doc m initMap shapeChecked testChecked).events.head? =
      some TestEv.timerStop ∧
    ((slotRestartTest tick doc m initMap shapeChecked testChecked).timerRunning =
      (createPreviewItems doc m initMap shapeChecked).ok) := by
  unfold slotRestartTest
  cases hok : (createPreviewItems doc m initMap shapeChecked).ok <;>
    cases testChecked <;> simp [hok]

/-! ### slotPreviewTimeout -/

/-- `QColor(col).rgb()`: the opaque rgb value Qt reports for a color built
from a raw `QRgb`, as stored back into the preview item by `setColor`. -/
def rgbOf (col : Nat) : Nat := 0xFF000000 + col % 0x1000000

/-- The while loop of `slotPreviewTimeout` (lines 647-656): while the
iterator has accumulated at least `M` (which stands for
`MAX(m_matrix->duration(), MasterTimer::tick())`), advance the preview step
(one `checkNextStep` followed by `previewMap`, modelled by `advance`),
subtract `M` from the iterator and add it to `elapsed`.  `M` is positive
whenever the loop is reached, since the slot returns early on zero
duration. -/
def previewLoop {α : Type} (M : Nat) (advance : α → α) (it : Nat) (h : α)
    (elapsed : Nat) : Nat × α × Nat :=
  if _hc : 0 < M ∧ M ≤ it then
    previewLoop M advance (it - M) (advance h) (elapsed + M)
  else
    (it, h, elapsed)
termination_by it
decreasing_by simp_wf; omega

theorem previewLoop_eq {α : Type} (M : Nat) (hM : 0 < M) (advance : α → α) :
    ∀ (it : Nat) (h : α) (e : Nat),
      previewLoop M advance it h e =
        (it % M, advance^[it / M] h, e + M * (it / M)) := by
  intro it
  induction it using Nat.strong_induction_on with
  | _ it ih =>
    intro h e
    rw [previewLoop]
    by_cases hle : M ≤ it
    · rw [dif_pos ⟨hM, hle⟩, ih (it - M) (by omega) (advance h) (e + M)]
      have hdiv : it / M = (it - M) / M + 1 := Nat.div_eq_sub_div hM hle
      simp only [Prod.mk.injEq]
      refine ⟨(Nat.mod_eq_sub_mod hle).symm, ?_, ?_⟩
      · rw [hdiv, Function.iterate_succ_apply]
      · rw [hdiv, Nat.mul_succ]
        ring
    · rw [dif_neg (fun hc => hle hc.2)]
      have hlt : it < M := by omega
      simp [Nat.mod_eq_of_lt hlt, Nat.div_eq_of_lt hlt]

/-- One body of the paint loop (lines 661-672): when the hash holds an item
at `pt`, the item's color is brought to the map cell's opaque rgb value
(`setColor` when it differs, a no-op when it is already equal) and the shape
redrawn; grid points without an item are skipped, and no entry is ever added
to or removed from the hash. -/
def paintCell (hash : List (QLCPoint × Nat)) (pt : QLCPoint) (col : Nat) :
    List (QLCPoint × Nat) :=
  if (hash.find? (fun e => e.1 == pt)).isSome then
    hash.map (fun e => if e.1 == pt then (e.1, rgbOf col) else e)
  else hash

/-- The paint double loop of `slotPreviewTimeout` (lines 657-674): paint
every cell of the handler's map onto the pre-existing items.  The
`draw(elapsed, fade speed)` calls are pure rendering and are not modelled. -/
def paintItems (map : List (List Nat)) (hash : List (QLCPoint × Nat)) :
    List (QLCPoint × Nat) :=
  map.enum.foldl (fun acc yrow =>
    yrow.2.enum.foldl (fun acc2 xcol => paintCell acc2 (xcol.1, yrow.1) xcol.2) acc)
    hash

theorem map_update_keys (hash : List (QLCPoint × Nat)) (pt : QLCPoint) (c : Nat) :
    (hash.map (fun e => if e.1 == pt then (e.1, c) else e)).map Prod.fst =
      hash.map Prod.fst := by
  rw [List.map_map]
  apply List.map_congr_left
  intro e _
  simp only [Function.comp_apply]
  split <;> rfl

theorem paintCell_keys (hash : List (QLCPoint × Nat)) (pt : QLCPoint) (col : Nat) :
    (paintCell hash pt col).map Prod.fst = hash.map Prod.fst := by
  unfold paintCell
  split
  · exact map_update_keys hash pt (rgbOf col)
  · rfl

theorem foldl_keys_preserved {β : Type}
    (g : List (QLCPoint × Nat) → β → List (QLCPoint × Nat))
    (hg : ∀ acc x, (g acc x).map Prod.fst = acc.map Prod.fst) :
    ∀ (l : List β) (acc : List (QLCPoint × Nat)),
      (l.foldl g acc).map Prod.fst = acc.map Prod.fst := by
  intro l
  induction l with
  | nil => intro acc; rfl
  | cons x t ih => intro acc; rw [List.foldl_cons, ih, hg]

theorem paintItems_keys (map : List (List Nat)) (hash : List (QLCPoint × Nat)) :
    (paintItems map hash).map Prod.fst = hash.map Prod.fst := by
  unfold paintItems
  apply foldl_keys_preserved
  intro acc yrow
  apply foldl_keys_preserved
  intro acc2 xcol
  exact paintCell_keys acc2 (xcol.1, yrow.1) xcol.2

/-- Result of `slotPreviewTimeout`: the accumulated iterator, the preview
handler state, and the preview hash. -/
structure PreviewTimeoutResult (α : Type) where
  previewIterator : Nat
  handler : α
  previewHash : List (QLCPoint × Nat)

/-- Shallow embedding of `RGBMatrixEditor::slotPreviewTimeout` (lines
640-675).  `tick` is `MasterTimer::tick()`; the preview handler state `α`,
its step transition `advance` (one `checkNextStep` followed by `previewMap`)
and its map view `mapOf` are collaborator code and abstract here. -/
def slotPreviewTimeout {α : Type} (duration tick : Nat) (advance : α → α)
    (mapOf : α → List (List Nat)) (it : Nat) (handler : α)
    (hash : List (QLCPoint × Nat)) : PreviewTimeoutResult α :=
  if duration ≤ 0 then ⟨it, handler, hash⟩
  else
    let r := previewLoop (max duration tick) advance (it + tick) handler 0
    ⟨r.1, r.2.1, paintItems (mapOf r.2.1) hash⟩

/-- C2: on a preview timer timeout with positive duration, the iterator
gains exactly one scheduler tick, the preview step is advanced once per full
`max(duration, tick)` interval accumulated in the iterator with the
remainder carried over, and colors are painted only onto pre-existing
preview items (the hash keys are unchanged). -/
theorem slotPreviewTimeout_spec {α : Type} (duration tick : Nat)
    (advance : α → α) (mapOf : α → List (List Nat)) (it : Nat) (handler : α)
    (hash : List (QLCPoint × Nat)) (hdur : 0 < duration) :
    (slotPreviewTimeout duration tick advance mapOf it handler hash).previewIterator
        = (it + tick) % max duration tick ∧
    (slotPreviewTimeout duration tick advance mapOf it handler hash).handler
        = advance^[(it + tick) / max duration tick] handler ∧
    (slotPreviewTimeout duration tick advance mapOf it handler hash).previewHash.map
        Prod.fst = hash.map Prod.fst := by
  have hM : 0 < max duration tick := lt_of_lt_of_le hdur (le_max_left _ _)
  unfold slotPreviewTimeout
  rw [if_neg (by omega), previewLoop_eq _ hM]
  exact ⟨rfl, rfl, paintItems_keys _ _⟩

/-- Witness for C2 at concrete inputs (duration 30, tick 20, iterator 25:
one advance, remainder 15). -/
theorem slotPreviewTimeout_spec_witness :
    (0 : Nat) < 30 ∧
    ((slotPreviewTimeout 30 20 Nat.succ (fun _ => [[0]]) 25 0
        [((0, 0), 7)]).previewIterator = (25 + 20) % max 30 20 ∧
     (slotPreviewTimeout 30 20 Nat.succ (fun _ => [[0]]) 25 0
        [((0, 0), 7)]).handler = Nat.succ^[(25 + 20) / max 30 20] 0 ∧
     (slotPreviewTimeout 30 20 Nat.succ (fun _ => [[0]]) 25 0
        [((0, 0), 7)]).previewHash.map Prod.fst = [((0, 0), 7)].map Prod.fst) :=
  ⟨by decide,
   slotPreviewTimeout_spec 30 20 Nat.succ (fun _ => [[0]]) 25 0 [((0, 0), 7)]
     (by decide)⟩

/-! ### slotSaveToSequenceClicked -/

/-- Subtraction of `uint` values as C++ computes it: wrap-around modulo
`2^32`. -/
def wsub32 (a b : Nat) : Nat :=
  (a % 2 ^ 32 + (2 ^ 32 - b % 2 ^ 32)) % 2 ^ 32

theorem wsub32_of_le (a b : Nat) (hb : b ≤ a) (ha : a < 2 ^ 32) :
    wsub32 a b = a - b := by
  unfold wsub32
  omega

/-- Modelled from the spec: `SceneValue::operator<` is engine collaborator
code not present in this file; a chaser step's value list is ordered by
fixture id, then channel (the snapshot order of channel values).  `svLE` is
the corresponding ascending (non-strict) comparison. -/
def svLE (a b : SceneValue) : Bool :=
  decide (a.fxi < b.fxi) ||
    (decide (a.fxi = b.fxi) && decide (a.channel ≤ b.channel))

theorem svLE_total (a b : SceneValue) : svLE a b || svLE b a := by
  simp only [svLE, Bool.or_eq_true, Bool.and_eq_true, decide_eq_true_eq]
  omega

theorem svLE_trans (a b c : SceneValue) : svLE a b → svLE b c → svLE a c := by
  simp only [svLE, Bool.or_eq_true, Bool.and_eq_true, decide_eq_true_eq]
  omega

/-- Insertion into a list sorted ascending with respect to `svLE`. -/
def insertSorted (v : SceneValue) : List SceneValue → List SceneValue
  | [] => [v]
  | w :: t => if svLE v w then v :: w :: t else w :: insertSorted v t

/-- The `std::sort(step.values.begin(), step.values.end())` call of line
1159, modelled as an insertion sort ascending with respect to `svLE`. -/
def sortValues : List SceneValue → List SceneValue
  | [] => []
  | v :: t => insertSorted v (sortValues t)

theorem mem_insertSorted (v x : SceneValue) :
    ∀ (l : List SceneValue), x ∈ insertSorted v l ↔ x = v ∨ x ∈ l := by
  intro l
  induction l with
  | nil => simp [insertSorted]
  | cons w t ih =>
    by_cases h : svLE v w = true
    · simp [insertSorted, h]
    · simp only [insertSorted, h, if_neg, Bool.not_eq_true, List.mem_cons, ih]
      tauto

theorem insertSorted_pairwise (v : SceneValue) :
    ∀ (l : List SceneValue), l.Pairwise (fun a b => svLE a b = true) →
      (insertSorted v l).Pairwise (fun a b => svLE a b = true) := by
  intro l
  induction l with
  | nil => intro _; simp [insertSorted]
  | cons w t ih =>
    intro hp
    rw [List.pairwise_cons] at hp
    obtain ⟨hw, ht⟩ := hp
    by_cases h : svLE v w = true
    · simp only [insertSorted, h, if_true]
      rw [List.pairwise_cons]
      refine ⟨?_, ?_⟩
      · intro b hb
        rcases List.mem_cons.mp hb with rfl | hb
        · exact h
        · exact svLE_trans v w b h (hw b hb)
      · rw [List.pairwise_cons]
        exact ⟨hw, ht⟩
    · have hwv : svLE w v = true := by
        have htot := svLE_total v w
        rw [Bool.or_eq_true] at htot
        exact htot.resolve_left h
      simp only [insertSorted, h, if_false, Bool.false_eq_true]
      rw [List.pairwise_cons]
      refine ⟨?_, ih ht⟩
      intro b hb
      rcases (mem_insertSorted v b t).mp hb with rfl | hb
      · exact hwv
      · exact hw b hb

theorem sortValues_pairwise :
    ∀ (l : List SceneValue),
      (sortValues l).Pairwise (fun a b => svLE a b = true) := by
  intro l
  induction l with
  | nil => simp [sortValues]
  | cons v t ih => exact insertSorted_pairwise v (sortValues t) ih

/-- Per-cell scene values of the export's inner double loop (lines
1136-1154): the cell's raw color split into the head's three rgb channel
values, followed by the intensity master channel (0 when the raw color is
zero, 255 otherwise); heads whose fixture is unknown contribute nothing. -/
def headStepValues (doc : Doc) (grp : FixtureGroup) (pt : QLCPoint) (col : Nat) :
    List SceneValue :=
  let head := grp.headAt pt
  match doc.fixture head.fxi with
  | none => []
  | some fxi =>
    (match fxi.rgbCh head.head with
     | [c0, c1, c2] =>
       [⟨head.fxi, c0, col / 65536 % 256⟩,
        ⟨head.fxi, c1, col / 256 % 256⟩,
        ⟨head.fxi, c2, col % 256⟩]
     | _ => []) ++
    (let master := fxi.master head.head
     if master ≠ invalidChannel then
       [⟨head.fxi, master, if col = 0 then 0 else 255⟩]
     else [])

/-- The inner double loop over the handler's map (lines 1132-1156). -/
def stepValuesOfMap (doc : Doc) (grp : FixtureGroup) (map : List (List Nat)) :
    List SceneValue :=
  (map.enum.map (fun yrow =>
    (yrow.2.enum.map (fun xcol =>
      headStepValues doc grp (xcol.1, yrow.1) xcol.2)).flatten)).flatten

/-- Scene values collected for the hidden group scene (lines 1068-1085):
zeroed rgb channels and master channel for every head of the group
(`Scene::setValue` is modelled as appending the value). -/
def grpSceneValues (doc : Doc) (grp : FixtureGroup) : List SceneValue :=
  (grp.headList.map (fun head =>
    match doc.fixture head.fxi with
    | none => []
    | some fxi =>
      (match fxi.rgbCh head.head with
       | [c0, c1, c2] => [⟨head.fxi, c0, 0⟩, ⟨head.fxi, c1, 0⟩, ⟨head.fxi, c2, 0⟩]
       | _ => []) ++
      (let master := fxi.master head.head
       if master ≠ invalidChannel then [⟨head.fxi, master, 0⟩] else []))).flatten

/-- The export loop of `slotSaveToSequenceClicked` (lines 1122-1169),
returning for each iteration the step index passed to
`m_matrix->previewMap` together with the chaser step appended to the
sequence.  `previewMapFn` models the map that `previewMap(step, handler)`
leaves in the handler given the handler's current step color, and
`updateStepColorFn` models `RGBMatrixStep::updateStepColor` (both
collaborator code). -/
def exportLoop (m : RGBMatrix) (grp : FixtureGroup) (doc : Doc)
    (previewMapFn : Int → QColor → List (List Nat))
    (updateStepColorFn : Int → QColor → Nat → QColor → QColor)
    (sceneId : Nat) :
    Nat → Int → Int → Int → QColor → List (Int × ChaserStep)
  | 0, _, _, _, _ => []
  | k + 1, totalSteps, currentStep, increment, stepColor =>
    let map := previewMapFn currentStep stepColor
    let step : ChaserStep :=
      { fid := sceneId
        fadeIn := m.fadeInSpeed
        hold := wsub32 m.duration m.fadeInSpeed
        fadeOut := m.fadeOutSpeed
        duration := m.duration
        values := sortValues (stepValuesOfMap doc grp map) }
    let cur1 := currentStep + increment
    let next :=
      if cur1 = totalSteps ∧ m.runOrder = RunOrder.PingPong then
        (totalSteps - 2, (-1 : Int))
      else (cur1, increment)
    let stepColor1 := updateStepColorFn next.1 m.startColor m.stepsCount stepColor
    (currentStep, step) ::
      exportLoop m grp doc previewMapFn updateStepColorFn sceneId k
        totalSteps next.1 next.2 stepColor1

/-- The loop setup of lines 1088-1103: `(totalSteps, currentStep, increment,
step color)` after the direction branch and the ping-pong doubling.  Note
that the ping-pong doubling happens after the backward branch read
`totalSteps`, and that the doubled value is the one the loop's reversal
check compares against. -/
def exportSetup (m : RGBMatrix) : Int × Int × Int × QColor :=
  let totalSteps : Int := (m.stepsCount : Int)
  let cis :=
    if m.direction = Direction.Backward then
      (totalSteps - 1, (-1 : Int),
       if m.endColor.valid then m.endColor else m.startColor)
    else (0, 1, m.startColor)
  let totalSteps1 :=
    if m.runOrder = RunOrder.PingPong then totalSteps * 2 - 1 else totalSteps
  (totalSteps1, cis.1, cis.2.1, cis.2.2)

/-- The export loop run from its setup; the `for` loop executes
`totalSteps` iterations (none when that signed value is not positive). -/
def exportPairs (doc : Doc) (m : RGBMatrix) (grp : FixtureGroup)
    (previewMapFn : Int → QColor → List (List Nat))
    (updateStepColorFn : Int → QColor → Nat → QColor → QColor)
    (sceneId : Nat) : List (Int × ChaserStep) :=
  let s := exportSetup m
  exportLoop m grp doc previewMapFn updateStepColorFn sceneId
    s.1.toNat s.1 s.2.1 s.2.2.1 s.2.2.2

/-- Result of `slotSaveToSequenceClicked`, with ghost observations: the step
indices passed to `previewMap` inside the export loop (`visited`), the steps
added to the new sequence (`seqSteps`), and the id of the scene created
(`none` when the routine returned early). -/
structure SaveResult where
  doc : Doc
  matrix : Option RGBMatrix
  timerRunning : Bool
  testChecked : Bool
  visited : List Int
  seqSteps : List ChaserStep
  sceneId : Option Nat
deriving DecidableEq, Repr

/-- The body of `slotSaveToSequenceClicked` once all guards have passed
(lines 1054-1176). -/
def doExport (doc : Doc) (m : RGBMatrix) (grp : FixtureGroup)
    (previewMapFn : Int → QColor → List (List Nat))
    (updateStepColorFn : Int → QColor → Nat → QColor → QColor)
    (initMap : List (List Nat)) (shapeChecked : Bool)
    (testChecked timerRunning : Bool) : SaveResult :=
  let a1 := doc.addFunction (fun fid =>
    DocFunction.scene fid grp.name false (grpSceneValues doc grp))
  let doc1 := a1.1
  let grpSceneId := a1.2
  let pairs := exportPairs doc1 m grp previewMapFn updateStepColorFn grpSceneId
  let steps := pairs.map Prod.snd
  let a2 := doc1.addFunction (fun fid =>
    DocFunction.sequence fid (m.name ++ " Sequence") grpSceneId true m.duration
      (decide (m.fadeInSpeed ≠ 0)) m.fadeInSpeed
      (decide (m.fadeOutSpeed ≠ 0)) m.fadeOutSpeed steps)
  let doc2 := a2.1
  let cpOk := (createPreviewItems doc2 m initMap shapeChecked).ok
  if testChecked then
    ⟨doc2, some m, timerRunning, true, pairs.map Prod.fst, steps, some grpSceneId⟩
  else
    ⟨doc2, some m, cpOk, false, pairs.map Prod.fst, steps, some grpSceneId⟩

/-- Shallow embedding of `RGBMatrixEditor::slotSaveToSequenceClicked`
(lines 1046-1178). -/
def slotSaveToSequenceClicked (doc : Doc) (mOpt : Option RGBMatrix)
    (previewMapFn : Int → QColor → List (List Nat))
    (updateStepColorFn : Int → QColor → Nat → QColor → QColor)
    (initMap : List (List Nat)) (shapeChecked : Bool)
    (testChecked timerRunning : Bool) : SaveResult :=
  match mOpt with
  | none => ⟨doc, mOpt, timerRunning, testChecked, [], [], none⟩
  | some m =>
    if m.fixtureGroup = invalidGroupId then
      ⟨doc, mOpt, timerRunning, testChecked, [], [], none⟩
    else
      match doc.fixtureGroup m.fixtureGroup with
      | none => ⟨doc, mOpt, timerRunning, testChecked, [], [], none⟩
      | some grp =>
        match m.algorithm with
        | none => ⟨doc, mOpt, timerRunning, testChecked, [], [], none⟩
        | some _ =>
          doExport doc m grp previewMapFn updateStepColorFn initMap
            shapeChecked testChecked timerRunning

/-- C3: when the matrix is null, no fixture group is bound, the document
has no group under the bound id, or the matrix has no algorithm, the
save-to-sequence routine returns early: no function is registered with the
document and the matrix is not modified. -/
theorem slotSaveToSequence_earlyReturn (doc : Doc) (mOpt : Option RGBMatrix)
    (previewMapFn : Int → QColor → List (List Nat))
    (updateStepColorFn : Int → QColor → Nat → QColor → QColor)
    (initMap : List (List Nat)) (shapeChecked testChecked timerRunning : Bool)
    (h : mOpt = none ∨ ∃ m, mOpt = some m ∧
      (m.fixtureGroup = invalidGroupId ∨
       doc.fixtureGroup m.fixtureGroup = none ∨ m.algorithm = none)) :
    (slotSaveToSequenceClicked doc mOpt previewMapFn updateStepColorFn initMap
        shapeChecked testChecked timerRunning).doc = doc ∧
    (slotSaveToSequenceClicked doc mOpt previewMapFn updateStepColorFn initMap
        shapeChecked testChecked timerRunning).doc.functions = doc.functions ∧
    (slotSaveToSequenceClicked doc mOpt previewMapFn updateStepColorFn initMap
        shapeChecked testChecked timerRunning).matrix = mOpt := by
  rcases h with h | ⟨m, hm, hcase⟩
  · subst h
    exact ⟨rfl, rfl, rfl⟩
  · subst hm
    rcases hcase with hc | hc | hc
    · simp [slotSaveToSequenceClicked, hc]
    · by_cases hinv : m.fixtureGroup = invalidGroupId
      · simp [slotSaveToSequenceClicked, hinv]
      · simp [slotSaveToSequenceClicked, hinv, hc]
    · by_cases hinv : m.fixtureGroup = invalidGroupId
      · simp [slotSaveToSequenceClicked, hinv]
      · cases hg : doc.fixtureGroup m.fixtureGroup with
        | none => simp [slotSaveToSequenceClicked, hinv, hg]
        | some grp => simp [slotSaveToSequenceClicked, hinv, hg, hc]

/-- Matrix with no algorithm, used by the C3 witness. -/
def mC3 : RGBMatrix :=
  ⟨"m", 1000, 0, 0, 4, RunOrder.Loop, Direction.Forward, BlendMode.NormalBlend,
   0, ⟨true, 255, 0, 0⟩, QColor.invalid, 3, none⟩

/-- Witness for C3 at a concrete matrix without an algorithm. -/
theorem slotSaveToSequence_earlyReturn_witness :
    (some mC3 = none ∨ ∃ m, some mC3 = some m ∧
      (m.fixtureGroup = invalidGroupId ∨
       docEmpty.fixtureGroup m.fixtureGroup = none ∨ m.algorithm = none)) ∧
    ((slotSaveToSequenceClicked docEmpty (some mC3) (fun _ _ => [])
        (fun _ _ _ c => c) [] false false false).doc = docEmpty ∧
     (slotSaveToSequenceClicked docEmpty (some mC3) (fun _ _ => [])
        (fun _ _ _ c => c) [] false false false).doc.functions = docEmpty.functions ∧
     (slotSaveToSequenceClicked docEmpty (some mC3) (fun _ _ => [])
        (fun _ _ _ c => c) [] false false false).matrix = some mC3) :=
  ⟨Or.inr ⟨mC3, rfl, Or.inr (Or.inr rfl)⟩,
   slotSaveToSequence_earlyReturn docEmpty (some mC3) (fun _ _ => [])
     (fun _ _ _ c => c) [] false false false
     (Or.inr ⟨mC3, rfl, Or.inr (Or.inr rfl)⟩)⟩

theorem exportLoop_mem (m : RGBMatrix) (grp : FixtureGroup) (doc : Doc)
    (pm : Int → QColor → List (List Nat))
    (us : Int → QColor → Nat → QColor → QColor) (sid : Nat) :
    ∀ (k : Nat) (tot cur inc : Int) (sc : QColor) (p : Int × ChaserStep),
      p ∈ exportLoop m grp doc pm us sid k tot cur inc sc →
      p.2.fid = sid ∧ p.2.duration = m.duration ∧ p.2.fadeIn = m.fadeInSpeed ∧
      p.2.fadeOut = m.fadeOutSpeed ∧
      p.2.hold = wsub32 m.duration m.fadeInSpeed ∧
      ∃ l, p.2.values = sortValues l := by
  intro k
  induction k with
  | zero =>
    intro tot cur inc sc p hp
    simp [exportLoop] at hp
  | succ k ih =>
    intro tot cur inc sc p hp
    simp only [exportLoop] at hp
    rcases List.mem_cons.mp hp with rfl | hp
    · exact ⟨rfl, rfl, rfl, rfl, rfl, ⟨_, rfl⟩⟩
    · exact ih _ _ _ _ p hp

theorem exportPairs_mem (doc : Doc) (m : RGBMatrix) (grp : FixtureGroup)
    (pm : Int → QColor → List (List Nat))
    (us : Int → QColor → Nat → QColor → QColor) (sid : Nat)
    (p : Int × ChaserStep) (hp : p ∈ exportPairs doc m grp pm us sid) :
    p.2.fid = sid ∧ p.2.duration = m.duration ∧ p.2.fadeIn = m.fadeInSpeed ∧
    p.2.fadeOut = m.fadeOutSpeed ∧
    p.2.hold = wsub32 m.duration m.fadeInSpeed ∧
    ∃ l, p.2.values = sortValues l :=
  exportLoop_mem m grp doc pm us sid _ _ _ _ _ p hp

theorem doExport_fields (doc : Doc) (m : RGBMatrix) (grp : FixtureGroup)
    (pm : Int → QColor → List (List Nat))
    (us : Int → QColor → Nat → QColor → QColor)
    (initMap : List (List Nat)) (shapeChecked testChecked timerRunning : Bool) :
    (doExport doc m grp pm us initMap shapeChecked testChecked
        timerRunning).sceneId = some doc.nextFunctionId ∧
    (doExport doc m grp pm us initMap shapeChecked testChecked
        timerRunning).seqSteps =
      (exportPairs
        (doc.addFunction (fun fid =>
          DocFunction.scene fid grp.name false (grpSceneValues doc grp))).1
        m grp pm us doc.nextFunctionId).map Prod.snd := by
  cases testChecked <;> exact ⟨rfl, rfl⟩

/-- C4: every chaser step appended by the save-to-sequence export carries
the matrix's duration as its duration, the matrix's fade-in speed as its
fadeIn, the matrix's fade-out speed as its fadeOut, and the matrix's
duration minus its fade-in speed as its hold, and is bound to the id of the
scene created in the same export.  The bounds hypotheses state that the
`uint` subtraction `duration - fadeInSpeed` does not wrap. -/
theorem export_step_timing (doc : Doc) (m : RGBMatrix) (grp : FixtureGroup)
    (pm : Int → QColor → List (List Nat))
    (us : Int → QColor → Nat → QColor → QColor)
    (initMap : List (List Nat)) (shapeChecked testChecked timerRunning : Bool)
    (hinv : m.fixtureGroup ≠ invalidGroupId)
    (hgrp : doc.fixtureGroup m.fixtureGroup = some grp)
    (halg : m.algorithm.isSome = true)
    (hfade : m.fadeInSpeed ≤ m.duration) (hdur : m.duration < 2 ^ 32) :
    (slotSaveToSequenceClicked doc (some m) pm us initMap shapeChecked
        testChecked timerRunning).sceneId = some doc.nextFunctionId ∧
    ∀ step ∈ (slotSaveToSequenceClicked doc (some m) pm us initMap
        shapeChecked testChecked timerRunning).seqSteps,
      step.fid = doc.nextFunctionId ∧ step.duration = m.duration ∧
      step.fadeIn = m.fadeInSpeed ∧ step.fadeOut = m.fadeOutSpeed ∧
      step.hold = m.duration - m.fadeInSpeed := by
  obtain ⟨a, ha⟩ := Option.isSome_iff_exists.mp halg
  have hred : slotSaveToSequenceClicked doc (some m) pm us initMap
      shapeChecked testChecked timerRunning =
      doExport doc m grp pm us initMap shapeChecked testChecked timerRunning := by
    simp [slotSaveToSequenceClicked, hinv, hgrp, ha]
  rw [hred]
  obtain ⟨hsid, hsteps⟩ :=
    doExport_fields doc m grp pm us initMap shapeChecked testChecked timerRunning
  refine ⟨hsid, ?_⟩
  intro step hstep
  rw [hsteps] at hstep
  obtain ⟨p, hp, rfl⟩ := List.mem_map.mp hstep
  obtain ⟨h1, h2, h3, h4, h5, -⟩ := exportPairs_mem _ m grp pm us _ p hp
  exact ⟨h1, h2, h3, h4, by rw [h5, wsub32_of_le _ _ hfade hdur]⟩

/-- Fixture used by the export witnesses, id 1. -/
def fx1 : Fixture := ⟨1, [[0, 1, 2]], [3]⟩

/-- Fixture used by the export witnesses, id 2. -/
def fx2 : Fixture := ⟨2, [[4, 5, 6]], [7]⟩

/-- Group placing fixture 2 before fixture 1 on the grid (displaced
heads). -/
def grpC4 : FixtureGroup := ⟨7, "grid", 2, 1, [((0, 0), ⟨2, 0⟩), ((1, 0), ⟨1, 0⟩)]⟩

/-- Document used by the C4 and C9 witnesses. -/
def docC4 : Doc := ⟨[grpC4], [fx1, fx2], [], 0⟩

/-- Matrix used by the C4 and C9 witnesses. -/
def mC4 : RGBMatrix :=
  ⟨"mx", 1000, 100, 50, 2, RunOrder.Loop, Direction.Forward,
   BlendMode.NormalBlend, 0, ⟨true, 255, 0, 0⟩, QColor.invalid, 7, some algoW⟩

/-- Witness for C4 at a concrete export. -/
theorem export_step_timing_witness :
    mC4.fixtureGroup ≠ invalidGroupId ∧
    docC4.fixtureGroup mC4.fixtureGroup = some grpC4 ∧
    mC4.algorithm.isSome = true ∧
    mC4.fadeInSpeed ≤ mC4.duration ∧ mC4.duration < 2 ^ 32 ∧
    ((slotSaveToSequenceClicked docC4 (some mC4) (fun _ _ => [[255, 0]])
        (fun _ _ _ c => c) [[255, 0]] false false false).sceneId =
      some docC4.nextFunctionId ∧
     ∀ step ∈ (slotSaveToSequenceClicked docC4 (some mC4) (fun _ _ => [[255, 0]])
        (fun _ _ _ c => c) [[255, 0]] false false false).seqSteps,
       step.fid = docC4.nextFunctionId ∧ step.duration = mC4.duration ∧
       step.fadeIn = mC4.fadeInSpeed ∧ step.fadeOut = mC4.fadeOutSpeed ∧
       step.hold = mC4.duration - mC4.fadeInSpeed) :=
  ⟨by decide, rfl, rfl, by decide, by decide,
   export_step_timing docC4 mC4 grpC4 (fun _ _ => [[255, 0]])
     (fun _ _ _ c => c) [[255, 0]] false false false
     (by decide) rfl rfl (by decide) (by decide)⟩

/-- C9: every chaser step appended by the save-to-sequence export has its
scene-value list sorted ascending (by fixture id, then channel) at the
moment it is added, regardless of the placement of the group's heads on the
grid. -/
theorem export_steps_sorted (doc : Doc) (m : RGBMatrix) (grp : FixtureGroup)
    (pm : Int → QColor → List (List Nat))
    (us : Int → QColor → Nat → QColor → QColor)
    (initMap : List (List Nat)) (shapeChecked testChecked timerRunning : Bool)
    (hinv : m.fixtureGroup ≠ invalidGroupId)
    (hgrp : doc.fixtureGroup m.fixtureGroup = some grp)
    (halg : m.algorithm.isSome = true) :
    ∀ step ∈ (slotSaveToSequenceClicked doc (some m) pm us initMap
        shapeChecked testChecked timerRunning).seqSteps,
      step.values.Pairwise (fun a b => svLE a b = true) := by
  obtain ⟨a, ha⟩ := Option.isSome_iff_exists.mp halg
  have hred : slotSaveToSequenceClicked doc (some m) pm us initMap
      shapeChecked testChecked timerRunning =
      doExport doc m grp pm us initMap shapeChecked testChecked timerRunning := by
    simp [slotSaveToSequenceClicked, hinv, hgrp, ha]
  rw [hred]
  obtain ⟨-, hsteps⟩ :=
    doExport_fields doc m grp pm us initMap shapeChecked testChecked timerRunning
  intro step hstep
  rw [hsteps] at hstep
  obtain ⟨p, hp, rfl⟩ := List.mem_map.mp hstep
  obtain ⟨-, -, -, -, -, l, hv⟩ := exportPairs_mem _ m grp pm us _ p hp
  rw [hv]
  exact sortValues_pairwise l

/-- Witness for C9 at a concrete export with displaced heads. -/
theorem export_steps_sorted_witness :
    mC4.fixtureGroup ≠ invalidGroupId ∧
    docC4.fixtureGroup mC4.fixtureGroup = some grpC4 ∧
    mC4.algorithm.isSome = true ∧
    (∀ step ∈ (slotSaveToSequenceClicked docC4 (some mC4) (fun _ _ => [[9, 255]])
        (fun _ _ _ c => c) [[9, 255]] false false false).seqSteps,
      step.values.Pairwise (fun a b => svLE a b = true)) :=
  ⟨by decide, rfl, rfl,
   export_steps_sorted docC4 mC4 grpC4 (fun _ _ => [[9, 255]])
     (fun _ _ _ c => c) [[9, 255]] false false false
     (by decide) rfl rfl⟩

/-- Group used by the C1 evaluation. -/
def grpC1 : FixtureGroup := ⟨9, "pp", 1, 1, [((0, 0), ⟨1, 0⟩)]⟩

/-- Document used by the C1 evaluation. -/
def docC1 : Doc := ⟨[grpC1], [fx1], [], 0⟩

/-- Ping-pong forward matrix with two steps, used by the C1 evaluation. -/
def mC1 : RGBMatrix :=
  ⟨"pp", 1000, 0, 0, 2, RunOrder.PingPong, Direction.Forward,
   BlendMode.NormalBlend, 0, ⟨true, 255, 0, 0⟩, QColor.invalid, 9, some algoW⟩

/-- C1 (refuted on the code): a ping-pong forward export with two steps
walks the step indices 0, 1, 2 — the loop's reversal check compares the
running index against the already-doubled total (here 3), never fires, and
the walk runs past the last valid step index instead of turning back; index
2 lies outside [0, stepsCount) = [0, 2). -/
theorem pingpong_export_visits_out_of_range :
    (slotSaveToSequenceClicked docC1 (some mC1) (fun _ _ => [[255]])
        (fun _ _ _ c => c) [[255]] false false false).visited = [0, 1, 2] ∧
    ¬ (∀ i ∈ (slotSaveToSequenceClicked docC1 (some mC1) (fun _ _ => [[255]])
        (fun _ _ _ c => c) [[255]] false false false).visited,
        0 ≤ i ∧ i < (mC1.stepsCount : Int)) := by
  decide

end QLC
